import Mathlib

/-!
Shallow embedding of the interactive region map widget (`MapComponent`
in the repository's map component source file).

The widget is a React component over Leaflet.  Its runtime state — the
map instance held in `mapRef`, the GeoJSON overlay held in
`geojsonRef`, and the `isMapVisible` flag — is modelled as an explicit
`WidgetState` record, and every event handler of the component
(`handleLocationClick`, the per-feature `mouseover`/`mouseout`
bindings, the fetch completion of `loadGeoJSON`, the
`IntersectionObserver` callback, the mount/unmount effects) is a pure
state transformer on it.  Leaflet path styles are records of the five
fields the widget ever sets; `setStyle` merges a partial patch into
the current options, as Leaflet does.  Decimal literals of the source
(`0.7`, `1.2`, `35.8617`, ...) are carried as exact rationals.
-/

/-- Leaflet path options: the five fields set by the widget's style
functions (`fillColor`, `weight`, `opacity`, `color`, `fillOpacity`). -/
structure PathOptions where
  fillColor : String
  weight : Nat
  opacity : Rat
  color : String
  fillOpacity : Rat
  deriving DecidableEq, Repr

/-- Partial style object passed to `setStyle`; absent fields keep the
layer's current value (Leaflet merge semantics). -/
structure StylePatch where
  fillColor : Option String := none
  weight : Option Nat := none
  opacity : Option Rat := none
  color : Option String := none
  fillOpacity : Option Rat := none
  deriving DecidableEq, Repr

/-- Merge a partial style patch into current path options, as Leaflet's
`setStyle` does. -/
def applyPatch (s : PathOptions) (p : StylePatch) : PathOptions :=
  { fillColor := p.fillColor.getD s.fillColor
    weight := p.weight.getD s.weight
    opacity := p.opacity.getD s.opacity
    color := p.color.getD s.color
    fillOpacity := p.fillOpacity.getD s.fillOpacity }

/-- Style function `defaultStyle` of the source: transparent fill,
weight 1, opacity 1, color `#333`, fillOpacity 0.  It sets every field,
so applying it fully resets a layer's style. -/
def defaultStyle : StylePatch :=
  { fillColor := some "transparent", weight := some 1, opacity := some 1,
    color := some "#333", fillOpacity := some 0 }

/-- Style function `highlightStyle` of the source: red fill `#ff0000`,
weight 2, opacity 1, color `#000`, fillOpacity 0.7.  This is the
"selected" style of the spec. -/
def highlightStyle : StylePatch :=
  { fillColor := some "#ff0000", weight := some 2, opacity := some 1,
    color := some "#000", fillOpacity := some (7/10) }

/-- Partial style applied on `mouseover` in `onEachFeature`:
`{ weight: 2, color: '#666' }`.  This is the "hover" style of the spec;
it only overrides weight and color. -/
def hoverStyle : StylePatch :=
  { weight := some 2, color := some "#666" }

/-- Full path options produced by the (total) `defaultStyle` patch. -/
def defaultOptions : PathOptions := applyPatch ⟨"", 0, 0, "", 0⟩ defaultStyle

/-- Full path options produced by the (total) `highlightStyle` patch. -/
def highlightOptions : PathOptions := applyPatch ⟨"", 0, 0, "", 0⟩ highlightStyle

/-- The four location preset identifiers of the `ILocation` union type
`'global' | 'china' | 'zunyi' | 'yangpu'`. -/
inductive LocationId where
  | global
  | china
  | zunyi
  | yangpu
  deriving DecidableEq, Repr

/-- Location preset (`ILocation` of the source): id, display label,
viewport center, zoom, and optional area code. -/
structure ILocation where
  id : LocationId
  label : String
  coords : Rat × Rat
  zoom : Nat
  areaCode : Option Nat := none
  deriving DecidableEq, Repr

/-- The `global` entry of the `locations` configuration list. -/
def globalLocation : ILocation :=
  { id := .global, label := "全球", coords := (35, 105), zoom := 2 }

/-- The `china` (country) entry of the `locations` configuration list. -/
def chinaLocation : ILocation :=
  { id := .china, label := "中国", coords := (358617/10000, 1041954/10000), zoom := 4 }

/-- The `zunyi` entry of the `locations` configuration list. -/
def zunyiLocation : ILocation :=
  { id := .zunyi, label := "遵义", coords := (277274/10000, 1069723/10000), zoom := 6,
    areaCode := some 520300 }

/-- The `yangpu` entry of the `locations` configuration list. -/
def yangpuLocation : ILocation :=
  { id := .yangpu, label := "杨浦", coords := (312626/10000, 1215369/10000), zoom := 8,
    areaCode := some 310110 }

/-- The ordered `locations` configuration list of the source. -/
def locations : List ILocation :=
  [globalLocation, chinaLocation, zunyiLocation, yangpuLocation]

/-- One rendered boundary layer of the GeoJSON overlay, carrying the
feature's `properties.adcode` and `properties.name` (either may be
absent) and its current path style. -/
structure Layer where
  adcode : Option Nat
  name : Option String
  style : PathOptions
  deriving DecidableEq, Repr

/-- The GeoJSON overlay object: its layers in insertion order, and the
`selectedLayer` back-reference attached to it by the widget, modelled
as an index into `layers` (`none` when unset or set to null). -/
structure GeoJSONObj where
  layers : List Layer
  selectedLayer : Option Nat
  deriving DecidableEq, Repr

/-- The Leaflet map object: current view center and zoom, the last
fly-to command issued (target coords, zoom, duration), whether
`remove()` has been called on it, and whether the GeoJSON overlay was
added to it via `addTo`. -/
structure MapObj where
  center : Rat × Rat
  zoom : Nat
  lastFly : Option ((Rat × Rat) × Nat × Rat)
  removed : Bool
  overlayAttached : Bool
  deriving DecidableEq, Repr

/-- Complete widget state: the map object created by the mount effect
(it survives unmount as a captured local), whether `mapRef.current`
still points at it, the `geojsonRef` overlay, and the `isMapVisible`
flag backing the button panel. -/
structure WidgetState where
  map : Option MapObj
  mapRefSet : Bool
  geojsonRef : Option GeoJSONObj
  isMapVisible : Bool
  deriving DecidableEq, Repr

/-- One feature of the fetched geometry document. -/
structure Feature where
  adcode : Option Nat := none
  name : Option String := none
  deriving DecidableEq, Repr

/-- Outcome of the one-shot geometry fetch: `failure` covers both a
non-ok response and a parse error (either lands in the `catch`), and
`success` carries the parsed feature collection. -/
inductive FetchResult where
  | failure
  | success (features : List Feature)
  deriving DecidableEq, Repr

/-- Apply a style patch to a single layer (`layer.setStyle(p)`). -/
def setLayerStyle (l : Layer) (p : StylePatch) : Layer :=
  { l with style := applyPatch l.style p }

/-- Truthiness test behind `if (!adcode) return;` in
`handleLocationClick`: the extracted adcode is falsy when the property
is absent or equal to 0. -/
def layerFalsyAdcode (l : Layer) : Bool :=
  match l.adcode with
  | none => true
  | some 0 => true
  | some (_ + 1) => false

/-- Whether `handleLocationClick`'s per-layer body highlights a layer:
the adcode must be non-falsy, and then either the preset is `china` or
the adcode strictly equals the preset's `areaCode`. -/
def layerMatches (location : ILocation) (l : Layer) : Bool :=
  !layerFalsyAdcode l &&
    (decide (location.id = LocationId.china) || decide (l.adcode = location.areaCode))

/-- The `eachLayer` loop of `handleLocationClick`, iterating the layers
in order starting at index `i`: highlights each matching layer and
returns the updated layers together with the final value of the
`selectedLayer` assignment (the last matching index, since each match
overwrites the previous assignment). -/
def applySelection (location : ILocation) : List Layer → Nat → List Layer × Option Nat
  | [], _ => ([], none)
  | l :: rest, i =>
    let p := applySelection location rest (i + 1)
    if layerFalsyAdcode l then (l :: p.1, p.2)
    else if location.id = LocationId.china ∨ l.adcode = location.areaCode then
      (setLayerStyle l highlightStyle :: p.1, some (p.2.getD i))
    else (l :: p.1, p.2)

/-- The `handleLocationClick` handler (the public `selectLocation`
operation): returns unchanged when `mapRef.current` or
`geojsonRef.current` is null; otherwise resets every layer to the
default style, clears `selectedLayer`, runs the `eachLayer` selection
loop unless the preset is `global`, and issues
`map.flyTo(location.coords, location.zoom, { duration: 1.2 })`. -/
def handleLocationClick (location : ILocation) (st : WidgetState) : WidgetState :=
  match (if st.mapRefSet then st.map else none), st.geojsonRef with
  | some m, some geojson =>
    let reset := geojson.layers.map (fun l => setLayerStyle l defaultStyle)
    let sel :=
      if location.id = LocationId.global then (reset, (none : Option Nat))
      else applySelection location reset 0
    { st with
      geojsonRef := some { layers := sel.1, selectedLayer := sel.2 }
      map := some { m with
        center := location.coords
        zoom := location.zoom
        lastFly := some (location.coords, location.zoom, 12/10) } }
  | _, _ => st

/-- State before the component mounts: no map, no overlay, and the
`isMapVisible` flag created by `useState(true)`. -/
def initialWidgetState : WidgetState :=
  { map := none, mapRefSet := false, geojsonRef := none, isMapVisible := true }

/-- The mount effect: guarded by `!mapContainerRef.current ||
mapRef.current`, it creates the map with `setView([35.8617, 104.1954], 4)`
and stores it in `mapRef.current`. -/
def initMapEffect (st : WidgetState) (containerAvailable : Bool) : WidgetState :=
  if !containerAvailable || st.mapRefSet then st
  else
    { st with
      map := some { center := (358617/10000, 1041954/10000), zoom := 4,
                    lastFly := none, removed := false, overlayAttached := false }
      mapRefSet := true }

/-- The effect cleanup run on unmount: `map.remove()` on the captured
map object and `mapRef.current = null`.  `geojsonRef` is not cleared. -/
def cleanupEffect (st : WidgetState) : WidgetState :=
  { st with
    map := st.map.map (fun m => { m with removed := true })
    mapRefSet := false }

/-- Construct one overlay layer from a fetched feature: the feature
reference is retained on the layer and the initial style is the
`style: defaultStyle` option of `L.geoJson`. -/
def mkLayer (f : Feature) : Layer :=
  { adcode := f.adcode, name := f.name, style := applyPatch ⟨"", 0, 0, "", 0⟩ defaultStyle }

/-- Completion of the asynchronous `loadGeoJSON`: on failure the catch
block only logs, leaving the state unchanged; on success the handler
unconditionally builds the overlay, calls `.addTo(map)` on the
captured map object (with no check that the map is still mounted or
that `mapRef.current` is still set), and stores it in
`geojsonRef.current`. -/
def loadGeoJSONComplete (res : FetchResult) (st : WidgetState) : WidgetState :=
  match res with
  | .failure => st
  | .success feats =>
    { st with
      map := st.map.map (fun m => { m with overlayAttached := true })
      geojsonRef := some { layers := feats.map mkLayer, selectedLayer := none } }

/-- Replace the layer at index `i` with `f` of it, leaving every other
layer unchanged (the effect of `layer.setStyle` on one layer of the
overlay's layer list). -/
def updateAt (f : Layer → Layer) : Nat → List Layer → List Layer
  | _, [] => []
  | 0, l :: rest => f l :: rest
  | n + 1, l :: rest => l :: updateAt f n rest

/-- The `mouseover` binding attached to layer `i` in `onEachFeature`:
when `geojsonRef.current?.selectedLayer` is falsy it applies the hover
patch to that layer only, else it does nothing. -/
def onMouseover (i : Nat) (st : WidgetState) : WidgetState :=
  match st.geojsonRef with
  | none => st
  | some geojson =>
    match geojson.selectedLayer with
    | some _ => st
    | none =>
      let gj2 : GeoJSONObj :=
        { geojson with layers := updateAt (fun l => setLayerStyle l hoverStyle) i geojson.layers }
      { st with geojsonRef := some gj2 }

/-- The `mouseout` binding of `onEachFeature`: when
`geojsonRef.current?.selectedLayer` is falsy it resets every layer via
`geojsonRef.current?.setStyle(defaultStyle)`, else it does nothing. -/
def onMouseout (st : WidgetState) : WidgetState :=
  match st.geojsonRef with
  | none => st
  | some geojson =>
    match geojson.selectedLayer with
    | some _ => st
    | none =>
      let gj2 : GeoJSONObj :=
        { geojson with layers := geojson.layers.map (fun l => setLayerStyle l defaultStyle) }
      { st with geojsonRef := some gj2 }

/-- One delivered `IntersectionObserver` entry: the `isIntersecting`
flag and the intersection ratio field (named `ratio` here). -/
structure IntersectionEntry where
  isIntersecting : Bool
  ratio : Rat
  deriving DecidableEq, Repr

/-- The observer callback:
`setIsMapVisible(entry.isIntersecting && entry.intersectionRatio > 0.5)`. -/
def observerCallback (e : IntersectionEntry) (st : WidgetState) : WidgetState :=
  { st with isMapVisible := e.isIntersecting && decide ((1:Rat)/2 < e.ratio) }

/-- Whether the button panel is present in the render output: the JSX
renders it under `{isMapVisible && (...)}`. -/
def panelRendered (st : WidgetState) : Bool := st.isMapVisible

/-- The buttons present in the render output: one per entry of
`locations` when the panel is rendered, none otherwise. -/
def renderedButtons (st : WidgetState) : List ILocation :=
  if st.isMapVisible then locations else []

/-- Layers of the current overlay (empty when no overlay loaded). -/
def stateLayers (st : WidgetState) : List Layer :=
  match st.geojsonRef with
  | some geojson => geojson.layers
  | none => []

/-- Current `selectedLayer` back-reference of the overlay. -/
def stateSelected (st : WidgetState) : Option Nat :=
  match st.geojsonRef with
  | some geojson => geojson.selectedLayer
  | none => none

/-- Last fly-to command issued on the map, if any. -/
def stateLastFly (st : WidgetState) : Option ((Rat × Rat) × Nat × Rat) :=
  match st.map with
  | some m => m.lastFly
  | none => none

/-- Net effect of one `handleLocationClick` pass on a single layer:
highlighted exactly when the preset is not `global` and the layer
matches, otherwise left in the freshly reset default style. -/
def clickLayerResult (location : ILocation) (l : Layer) : Layer :=
  if location.id ≠ LocationId.global ∧ layerMatches location l = true
  then { l with style := highlightOptions }
  else { l with style := defaultOptions }

/-- Applying the total `defaultStyle` patch yields `defaultOptions`
regardless of the previous options. -/
theorem applyPatch_defaultStyle (s : PathOptions) : applyPatch s defaultStyle = defaultOptions := rfl

/-- Applying the total `highlightStyle` patch yields `highlightOptions`
regardless of the previous options. -/
theorem applyPatch_highlightStyle (s : PathOptions) :
    applyPatch s highlightStyle = highlightOptions := rfl

/-- Restyling a layer does not change whether it matches a preset. -/
theorem layerMatches_setLayerStyle (location : ILocation) (l : Layer) (p : StylePatch) :
    layerMatches location (setLayerStyle l p) = layerMatches location l := rfl

/-- Restyling a layer does not change its falsy-adcode test. -/
theorem layerFalsyAdcode_setLayerStyle (l : Layer) (p : StylePatch) :
    layerFalsyAdcode (setLayerStyle l p) = layerFalsyAdcode l := rfl

/-- Pointwise description of `updateAt`. -/
theorem updateAt_getElem? (f : Layer → Layer) (i j : Nat) (xs : List Layer) :
    (updateAt f i xs)[j]? = if j = i then xs[j]?.map f else xs[j]? := by
  induction xs generalizing i j with
  | nil => simp [updateAt]
  | cons x rest ih =>
    cases i with
    | zero =>
      cases j with
      | zero => simp [updateAt]
      | succ j => simp [updateAt]
    | succ i =>
      cases j with
      | zero => simp [updateAt]
      | succ j => simpa [updateAt] using ih i j

/-- Congruence for `List.map` from a pointwise function equality. -/
theorem list_map_ext {α β : Type} (f g : α → β) (h : ∀ a, f a = g a) (xs : List α) :
    xs.map f = xs.map g := by
  induction xs with
  | nil => rfl
  | cons x rest ih => simp [h x, ih]

/-- The layers produced by the `eachLayer` selection loop: each
matching layer is highlighted, all others are untouched. -/
theorem applySelection_fst (location : ILocation) (xs : List Layer) (i : Nat) :
    (applySelection location xs i).1 =
      xs.map (fun l => if layerMatches location l then setLayerStyle l highlightStyle else l) := by
  induction xs generalizing i with
  | nil => simp [applySelection]
  | cons x rest ih =>
    by_cases hf : layerFalsyAdcode x
    · simp [applySelection, hf, layerMatches, ih]
    · by_cases hm : location.id = LocationId.china ∨ x.adcode = location.areaCode
      · simp [applySelection, hf, hm, layerMatches, ih]
      · push_neg at hm
        simp [applySelection, hf, hm.1, hm.2, layerMatches, ih]

/-- When the selection loop records a `selectedLayer`, the recorded
index points at a layer of the list that matches the preset. -/
theorem applySelection_snd_some (location : ILocation) (xs : List Layer) (i k : Nat)
    (h : (applySelection location xs i).2 = some k) :
    ∃ l, xs[k - i]? = some l ∧ layerMatches location l = true ∧ i ≤ k := by
  induction xs generalizing i with
  | nil => simp [applySelection] at h
  | cons x rest ih =>
    by_cases hf : layerFalsyAdcode x
    · have h2 : (applySelection location rest (i + 1)).2 = some k := by
        simpa [applySelection, hf] using h
      obtain ⟨l, hl, hm, hle⟩ := ih (i + 1) h2
      have hki : k - i = (k - (i + 1)) + 1 := by omega
      refine ⟨l, ?_, hm, by omega⟩
      rw [hki]
      simpa using hl
    · by_cases hcm : location.id = LocationId.china ∨ x.adcode = location.areaCode
      · have h2 : some ((applySelection location rest (i + 1)).2.getD i) = some k := by
          simpa [applySelection, hf, hcm] using h
        have hmx : layerMatches location x = true := by
          rcases hcm with hc | hc <;> simp [layerMatches, hf, hc]
        cases hsnd : (applySelection location rest (i + 1)).2 with
        | none =>
          rw [hsnd] at h2
          simp at h2
          refine ⟨x, ?_, hmx, by omega⟩
          have hki : k - i = 0 := by omega
          rw [hki]
          simp
        | some j =>
          rw [hsnd] at h2
          simp at h2
          rw [h2] at hsnd
          obtain ⟨l, hl, hm, hle⟩ := ih (i + 1) hsnd
          have hki : k - i = (k - (i + 1)) + 1 := by omega
          refine ⟨l, ?_, hm, by omega⟩
          rw [hki]
          simpa using hl
      · push_neg at hcm
        have h2 : (applySelection location rest (i + 1)).2 = some k := by
          simpa [applySelection, hf, hcm.1, hcm.2] using h
        obtain ⟨l, hl, hm, hle⟩ := ih (i + 1) h2
        have hki : k - i = (k - (i + 1)) + 1 := by omega
        refine ⟨l, ?_, hm, by omega⟩
        rw [hki]
        simpa using hl

/-- Helper: after a click that passes the null guard, the overlay
layers are exactly the previous layers mapped through
`clickLayerResult` (reset to default, then highlighted when the
selection loop matches). -/
theorem click_stateLayers (location : ILocation) (st : WidgetState) (m : MapObj)
    (geojson : GeoJSONObj) (h1 : st.mapRefSet = true) (h2 : st.map = some m)
    (h3 : st.geojsonRef = some geojson) :
    stateLayers (handleLocationClick location st) =
      geojson.layers.map (clickLayerResult location) := by
  simp only [handleLocationClick, h1, h2, h3, if_true, stateLayers]
  by_cases hg : location.id = LocationId.global
  · rw [if_pos hg]
    exact list_map_ext _ _ (fun l => by
      simp [clickLayerResult, hg, setLayerStyle, applyPatch_defaultStyle]) geojson.layers
  · rw [if_neg hg, applySelection_fst, List.map_map]
    exact list_map_ext _ _ (fun l => by
      show (if layerMatches location (setLayerStyle l defaultStyle) = true
            then setLayerStyle (setLayerStyle l defaultStyle) highlightStyle
            else setLayerStyle l defaultStyle) =
           (if location.id ≠ LocationId.global ∧ layerMatches location l = true
            then { l with style := highlightOptions }
            else { l with style := defaultOptions })
      rw [layerMatches_setLayerStyle]
      by_cases hm : layerMatches location l = true
      · rw [if_pos hm, if_pos (And.intro hg hm)]
        rfl
      · rw [if_neg hm, if_neg (fun hc => hm (And.right hc))]
        rfl) geojson.layers

/-- Helper: when `handleLocationClick` records a `selectedLayer`, the
recorded index points at a previously loaded layer that matches the
clicked preset. -/
theorem click_selected_matches (location : ILocation) (st : WidgetState) (m : MapObj)
    (geojson : GeoJSONObj) (k : Nat) (h1 : st.mapRefSet = true) (h2 : st.map = some m)
    (h3 : st.geojsonRef = some geojson)
    (h : stateSelected (handleLocationClick location st) = some k) :
    ∃ l, geojson.layers[k]? = some l ∧ layerMatches location l = true := by
  simp only [handleLocationClick, h1, h2, h3, if_true, stateSelected] at h
  by_cases hg : location.id = LocationId.global
  · rw [if_pos hg] at h
    simp at h
  · rw [if_neg hg] at h
    obtain ⟨l0, hl0, hm0, -⟩ :=
      applySelection_snd_some location (geojson.layers.map (fun l => setLayerStyle l defaultStyle)) 0 k h
    rw [Nat.sub_zero, List.getElem?_map] at hl0
    cases hl : geojson.layers[k]? with
    | none => rw [hl] at hl0; simp at hl0
    | some l =>
      rw [hl] at hl0
      simp at hl0
      refine ⟨l, rfl, ?_⟩
      rw [← layerMatches_setLayerStyle location l defaultStyle, hl0]
      exact hm0

/-- Helper: a click that passes the null guard always issues the
fly-to command for the preset's coordinates, zoom and duration 1.2. -/
theorem click_lastFly (location : ILocation) (st : WidgetState) (m : MapObj)
    (geojson : GeoJSONObj) (h1 : st.mapRefSet = true) (h2 : st.map = some m)
    (h3 : st.geojsonRef = some geojson) :
    stateLastFly (handleLocationClick location st) =
      some (location.coords, location.zoom, 12/10) := by
  simp only [handleLocationClick, h1, h2, h3, if_true, stateLastFly]

/-- Helper: the null guard of `handleLocationClick` makes the click a
no-op whenever the map ref is cleared, the map was never created, or
the overlay never loaded. -/
theorem click_noop (location : ILocation) (st : WidgetState)
    (h : st.mapRefSet = false ∨ st.map = none ∨ st.geojsonRef = none) :
    handleLocationClick location st = st := by
  unfold handleLocationClick
  rcases h with h | h | h
  · rw [h]
    simp
  · cases hb : st.mapRefSet <;> simp [h]
  · cases hm : (if st.mapRefSet then st.map else none) <;> simp [h]

/-- A fixed map object as produced by the mount effect, used as the
concrete map instance of the witness states. -/
def baseMapObj : MapObj :=
  { center := (358617/10000, 1041954/10000), zoom := 4,
    lastFly := none, removed := false, overlayAttached := false }

/-- C7: if the map instance or the overlay layer has not finished
loading (the `mapRef` is unset or null, or `geojsonRef` is null),
`handleLocationClick` is a no-op: it returns immediately and leaves
the whole widget state — styles, back-reference and viewport —
unchanged.  It is a total function, so no error is raised. -/
theorem selectLocation_noop_before_ready (location : ILocation) (st : WidgetState)
    (h : st.mapRefSet = false ∨ st.map = none ∨ st.geojsonRef = none) :
    handleLocationClick location st = st :=
  click_noop location st h

/-- Witness for C7 at the pre-mount state and the `china` preset. -/
theorem selectLocation_noop_before_ready_witness :
    handleLocationClick chinaLocation initialWidgetState = initialWidgetState :=
  selectLocation_noop_before_ready chinaLocation initialWidgetState (Or.inl rfl)

/-- C10: the panel-visibility flag is created by `useState(true)`, so
before the intersection observer delivers any callback the button
panel is rendered, with one button per configured location. -/
theorem panel_rendered_on_mount :
    initialWidgetState.isMapVisible = true
    ∧ panelRendered initialWidgetState = true
    ∧ renderedButtons initialWidgetState = locations :=
  ⟨rfl, rfl, rfl⟩

/-- C6: after a delivered observer entry, the button panel is rendered
iff the intersection ratio strictly exceeds 1/2.  The hypothesis
records the `IntersectionObserver` guarantee that an entry whose
intersection ratio is positive reports `isIntersecting`; with it, the
`isIntersecting && ratio > 0.5` expression of the source is equivalent
to the ratio test alone, and every ratio at or below 1/2 un-renders
the panel. -/
theorem panel_rendered_iff_ratio_above_half (st : WidgetState) (e : IntersectionEntry)
    (h : (1:Rat)/2 < e.ratio → e.isIntersecting = true) :
    panelRendered (observerCallback e st) = true ↔ (1:Rat)/2 < e.ratio := by
  simp only [panelRendered, observerCallback, Bool.and_eq_true, decide_eq_true_eq]
  constructor
  · rintro ⟨-, hr⟩
    exact hr
  · intro hr
    exact ⟨h hr, hr⟩

/-- Witness for C6 at a concrete intersecting entry with ratio 3/4. -/
theorem panel_rendered_iff_ratio_above_half_witness :
    panelRendered (observerCallback ⟨true, 3/4⟩ initialWidgetState) = true ↔ (1:Rat)/2 < 3/4 :=
  panel_rendered_iff_ratio_above_half initialWidgetState ⟨true, 3/4⟩ (fun _ => rfl)

/-- C8: while no feature is selected (`selectedLayer` is null),
`mouseover` on feature `i` applies the hover patch to that feature
only — every other index is untouched — and `mouseout` resets every
feature to the default style. -/
theorem hover_when_no_selection (st : WidgetState) (geojson : GeoJSONObj) (i : Nat)
    (h3 : st.geojsonRef = some geojson) (hsel : geojson.selectedLayer = none) :
    (∀ j, (stateLayers (onMouseover i st))[j]? =
        if j = i then geojson.layers[j]?.map (fun l => setLayerStyle l hoverStyle)
        else geojson.layers[j]?)
    ∧ (∀ j : Nat, (stateLayers (onMouseout st))[j]? =
        geojson.layers[j]?.map (fun l => setLayerStyle l defaultStyle)) := by
  constructor
  · intro j
    simp only [onMouseover, h3, hsel, stateLayers]
    exact updateAt_getElem? _ i j geojson.layers
  · intro j
    simp only [onMouseout, h3, hsel, stateLayers]
    exact List.getElem?_map _ geojson.layers j

/-- A loaded overlay with one boundary feature and nothing selected,
used as a concrete witness state. -/
def hoverGJ : GeoJSONObj :=
  { layers := [{ adcode := some 520300, name := some "遵义市", style := defaultOptions }],
    selectedLayer := none }

/-- Widget state with map mounted and `hoverGJ` loaded. -/
def hoverState : WidgetState :=
  { map := some baseMapObj, mapRefSet := true, geojsonRef := some hoverGJ, isMapVisible := true }

/-- Witness for C8 on a one-feature overlay with no selection. -/
theorem hover_when_no_selection_witness :
    (stateLayers (onMouseover 0 hoverState))[0]? =
      some (setLayerStyle { adcode := some 520300, name := some "遵义市", style := defaultOptions } hoverStyle)
    ∧ (stateLayers (onMouseout hoverState))[0]? =
      some (setLayerStyle { adcode := some 520300, name := some "遵义市", style := defaultOptions } defaultStyle) := by
  have h := hover_when_no_selection hoverState hoverGJ 0 rfl rfl
  constructor
  · have h1 := h.1 0
    simpa [hoverGJ] using h1
  · have h2 := h.2 0
    simpa [hoverGJ] using h2

/-- C4: while some feature is selected (`selectedLayer` non-null),
`mouseover` on any feature leaves the whole state — in particular that
feature's style — unchanged, `mouseout` leaves every feature's style
unchanged, and any new selection click rebuilds every layer's style
from the default reset (highlight where the loop matches, the freshly
reset default everywhere else), so no pre-existing hover or selection
style survives. -/
theorem selection_suppresses_hover_and_resets (st : WidgetState) (geojson : GeoJSONObj) (j : Nat)
    (h3 : st.geojsonRef = some geojson) (hsel : geojson.selectedLayer = some j) :
    (∀ i, onMouseover i st = st)
    ∧ onMouseout st = st
    ∧ (∀ (location : ILocation) (m : MapObj), st.mapRefSet = true → st.map = some m →
        ∀ (k : Nat) (l : Layer), geojson.layers[k]? = some l →
          (stateLayers (handleLocationClick location st))[k]? =
            some (clickLayerResult location l)) := by
  refine ⟨?_, ?_, ?_⟩
  · intro i
    simp [onMouseover, h3, hsel]
  · simp [onMouseout, h3, hsel]
  · intro location m h1 h2 k l hl
    rw [click_stateLayers location st m geojson h1 h2 h3, List.getElem?_map, hl]
    rfl

/-- Overlay with one highlighted feature recorded as selected. -/
def selGJ : GeoJSONObj :=
  { layers := [{ adcode := some 520300, name := some "遵义市", style := highlightOptions }],
    selectedLayer := some 0 }

/-- Widget state with map mounted and `selGJ` loaded. -/
def selState : WidgetState :=
  { map := some baseMapObj, mapRefSet := true, geojsonRef := some selGJ, isMapVisible := true }

/-- Witness for C4 on a selected one-feature overlay. -/
theorem selection_suppresses_hover_and_resets_witness :
    onMouseover 0 selState = selState
    ∧ onMouseout selState = selState
    ∧ (stateLayers (handleLocationClick globalLocation selState))[0]? =
        some (clickLayerResult globalLocation
          { adcode := some 520300, name := some "遵义市", style := highlightOptions }) := by
  have h := selection_suppresses_hover_and_resets selState selGJ 0 rfl rfl
  exact ⟨h.1 0, h.2.1, h.2.2 globalLocation baseMapObj rfl rfl 0 _ rfl⟩

/-- C9: a boundary feature whose adcode is absent or 0 is skipped by
the falsy guard of the selection loop for every preset: after any
click that passes the null guard it carries the default style, and it
is never recorded as the `selectedLayer` back-reference. -/
theorem falsy_adcode_never_selected (location : ILocation) (st : WidgetState) (m : MapObj)
    (geojson : GeoJSONObj) (k : Nat) (l : Layer)
    (h1 : st.mapRefSet = true) (h2 : st.map = some m) (h3 : st.geojsonRef = some geojson)
    (hl : geojson.layers[k]? = some l) (hf : layerFalsyAdcode l = true) :
    (stateLayers (handleLocationClick location st))[k]? = some { l with style := defaultOptions }
    ∧ stateSelected (handleLocationClick location st) ≠ some k := by
  have hmf : layerMatches location l = false := by
    simp [layerMatches, hf]
  constructor
  · rw [click_stateLayers location st m geojson h1 h2 h3, List.getElem?_map, hl]
    simp [clickLayerResult, hmf]
  · intro hk
    obtain ⟨l2, hl2, hm2⟩ := click_selected_matches location st m geojson k h1 h2 h3 hk
    rw [hl] at hl2
    have hll : l = l2 := by injection hl2
    rw [← hll, hmf] at hm2
    exact Bool.false_ne_true hm2

/-- Overlay with one feature whose adcode is 0, never selectable. -/
def falsyGJ : GeoJSONObj :=
  { layers := [{ adcode := some 0, name := some "零", style := defaultOptions }],
    selectedLayer := none }

/-- Widget state with map mounted and `falsyGJ` loaded. -/
def falsyState : WidgetState :=
  { map := some baseMapObj, mapRefSet := true, geojsonRef := some falsyGJ, isMapVisible := true }

/-- Witness for C9: clicking `china` never styles or records the
adcode-0 feature. -/
theorem falsy_adcode_never_selected_witness :
    (stateLayers (handleLocationClick chinaLocation falsyState))[0]? =
      some { adcode := some 0, name := some "零", style := defaultOptions }
    ∧ stateSelected (handleLocationClick chinaLocation falsyState) ≠ some 0 := by
  have h := falsy_adcode_never_selected chinaLocation falsyState baseMapObj falsyGJ 0
    { adcode := some 0, name := some "零", style := defaultOptions } rfl rfl rfl rfl rfl
  exact ⟨h.1, h.2⟩

/-- Helper: per-layer outcome of a `china` click — highlight exactly
the layers whose adcode is non-falsy. -/
theorem clickLayerResult_china (l : Layer) :
    clickLayerResult chinaLocation l =
      { l with style := if layerFalsyAdcode l then defaultOptions else highlightOptions } := by
  by_cases hf : layerFalsyAdcode l = true
  · simp [clickLayerResult, layerMatches, hf, chinaLocation]
  · simp [clickLayerResult, layerMatches, hf, chinaLocation]

/-- C2 (amended): clicking the `china` preset highlights every loaded
feature whose adcode is present and non-zero, while any feature with
an absent or 0 adcode is left in the default style by the falsy
guard. -/
theorem select_china_highlights_all_with_adcode (st : WidgetState) (m : MapObj)
    (geojson : GeoJSONObj) (h1 : st.mapRefSet = true) (h2 : st.map = some m)
    (h3 : st.geojsonRef = some geojson) :
    ∀ (k : Nat) (l : Layer), geojson.layers[k]? = some l →
      (stateLayers (handleLocationClick chinaLocation st))[k]? =
        some { l with style := if layerFalsyAdcode l then defaultOptions else highlightOptions } := by
  intro k l hl
  rw [click_stateLayers chinaLocation st m geojson h1 h2 h3, List.getElem?_map, hl]
  simp [clickLayerResult_china]

/-- Overlay whose single feature has no adcode property. -/
def noAdcodeGJ : GeoJSONObj :=
  { layers := [{ adcode := none, name := some "佚名", style := defaultOptions }],
    selectedLayer := none }

/-- Widget state with map mounted and `noAdcodeGJ` loaded. -/
def noAdcodeState : WidgetState :=
  { map := some baseMapObj, mapRefSet := true, geojsonRef := some noAdcodeGJ, isMapVisible := true }

/-- C2 counterexample: on a loaded document whose only feature lacks an
adcode, clicking `china` leaves that feature in the default style (and
the default style differs from the selected style), so not every
loaded feature is highlighted. -/
theorem select_china_leaves_missing_adcode_default :
    (stateLayers (handleLocationClick chinaLocation noAdcodeState))[0]? =
      some { adcode := none, name := some "佚名", style := defaultOptions }
    ∧ defaultOptions ≠ highlightOptions := by
  constructor
  · rfl
  · intro heq
    have hfc : defaultOptions.fillColor = highlightOptions.fillColor := by rw [heq]
    simp [defaultOptions, highlightOptions, applyPatch, defaultStyle, highlightStyle] at hfc

/-- Overlay with two distinct-adcode features and one missing adcode. -/
def chinaGJ : GeoJSONObj :=
  { layers := [{ adcode := some 520300, name := some "甲", style := defaultOptions },
               { adcode := none, name := some "乙", style := defaultOptions }],
    selectedLayer := none }

/-- Widget state with map mounted and `chinaGJ` loaded. -/
def chinaState : WidgetState :=
  { map := some baseMapObj, mapRefSet := true, geojsonRef := some chinaGJ, isMapVisible := true }

/-- Witness for C2 (amended) on `chinaGJ`. -/
theorem select_china_highlights_all_with_adcode_witness :
    (stateLayers (handleLocationClick chinaLocation chinaState))[0]? =
      some { adcode := some 520300, name := some "甲", style := highlightOptions } := by
  have h := select_china_highlights_all_with_adcode chinaState baseMapObj chinaGJ rfl rfl rfl 0
    { adcode := some 520300, name := some "甲", style := defaultOptions } rfl
  exact h.trans (by simp [layerFalsyAdcode])

/-- Helper: per-layer outcome of clicking a regional preset whose
`areaCode` is a fixed non-zero code: highlight exactly on adcode
equality. -/
theorem clickLayerResult_of_areaCode (location : ILocation) (c : Nat) (hc : c ≠ 0)
    (hng : location.id ≠ LocationId.global) (hnc : location.id ≠ LocationId.china)
    (hac : location.areaCode = some c) (l : Layer) :
    clickLayerResult location l =
      { l with style := if l.adcode = location.areaCode then highlightOptions else defaultOptions } := by
  by_cases hm : l.adcode = location.areaCode
  · have hfa : layerFalsyAdcode l = false := by
      rw [hac] at hm
      cases hcn : l.adcode with
      | none => rw [hcn] at hm; simp at hm
      | some n =>
        rw [hcn] at hm
        have hn : n = c := by injection hm
        cases n with
        | zero => exact absurd hn.symm hc
        | succ n2 => simp [layerFalsyAdcode, hcn]
    have hmt : layerMatches location l = true := by
      simp [layerMatches, hfa, hm]
    simp [clickLayerResult, hng, hmt, hm]
  · have hmf : layerMatches location l = false := by
      simp [layerMatches, hnc, hm]
    simp [clickLayerResult, hmf, hm]

/-- C3: clicking any preset other than `china` and `global` (so
`zunyi` or `yangpu`) highlights exactly the features whose adcode
equals the preset's `areaCode` — all of them when duplicates exist,
since the loop is evaluated per feature — and resets every other
feature to the default style. -/
theorem select_region_highlights_exact_matches (st : WidgetState) (m : MapObj)
    (geojson : GeoJSONObj) (location : ILocation)
    (h1 : st.mapRefSet = true) (h2 : st.map = some m) (h3 : st.geojsonRef = some geojson)
    (hmem : location ∈ locations)
    (hnc : location.id ≠ LocationId.china) (hng : location.id ≠ LocationId.global) :
    ∀ (k : Nat) (l : Layer), geojson.layers[k]? = some l →
      (stateLayers (handleLocationClick location st))[k]? =
        some { l with style := if l.adcode = location.areaCode then highlightOptions else defaultOptions } := by
  intro k l hl
  rw [click_stateLayers location st m geojson h1 h2 h3, List.getElem?_map, hl]
  have hcase : location = zunyiLocation ∨ location = yangpuLocation := by
    simp only [locations, List.mem_cons, List.not_mem_nil, or_false] at hmem
    rcases hmem with h | h | h | h
    · exact absurd (by rw [h] ; rfl) hng
    · exact absurd (by rw [h] ; rfl) hnc
    · exact Or.inl h
    · exact Or.inr h
  rcases hcase with h | h
  · subst h
    show some (clickLayerResult zunyiLocation l) = _
    rw [clickLayerResult_of_areaCode zunyiLocation 520300 (by decide) (by decide) (by decide) rfl l]
  · subst h
    show some (clickLayerResult yangpuLocation l) = _
    rw [clickLayerResult_of_areaCode yangpuLocation 310110 (by decide) (by decide) (by decide) rfl l]

/-- Overlay with duplicate `zunyi` adcodes around a `yangpu` one. -/
def regionGJ : GeoJSONObj :=
  { layers := [{ adcode := some 520300, name := some "甲", style := defaultOptions },
               { adcode := some 310110, name := some "乙", style := highlightOptions },
               { adcode := some 520300, name := some "丙", style := defaultOptions }],
    selectedLayer := none }

/-- Widget state with map mounted and `regionGJ` loaded. -/
def regionState : WidgetState :=
  { map := some baseMapObj, mapRefSet := true, geojsonRef := some regionGJ, isMapVisible := true }

/-- Witness for C3: clicking `zunyi` highlights both duplicate 520300
features and resets the previously highlighted 310110 feature. -/
theorem select_region_highlights_exact_matches_witness :
    (stateLayers (handleLocationClick zunyiLocation regionState))[2]? =
      some { adcode := some 520300, name := some "丙", style := highlightOptions }
    ∧ (stateLayers (handleLocationClick zunyiLocation regionState))[1]? =
      some { adcode := some 310110, name := some "乙", style := defaultOptions } := by
  have h := select_region_highlights_exact_matches regionState baseMapObj regionGJ zunyiLocation
    rfl rfl rfl (by simp [locations]) (by decide) (by decide)
  constructor
  · have h2 := h 2 { adcode := some 520300, name := some "丙", style := defaultOptions } rfl
    exact h2.trans (by simp [zunyiLocation])
  · have h1 := h 1 { adcode := some 310110, name := some "乙", style := highlightOptions } rfl
    exact h1.trans (by simp [zunyiLocation])

/-- State reached when the mount effect ran and the geometry fetch
failed: the map exists and is referenced, but `geojsonRef` stays null. -/
def failedFetchState : WidgetState :=
  loadGeoJSONComplete FetchResult.failure (initMapEffect initialWidgetState true)

/-- C1 counterexample: after a failed fetch, clicking the `zunyi`
preset does NOT issue the fly-to animation for its coordinates and
zoom — the `!geojson` guard of `handleLocationClick` returns before
`map.flyTo`, contradicting the claim that the viewport animation is
still issued. -/
theorem failed_fetch_click_issues_no_flyto :
    stateLastFly (handleLocationClick zunyiLocation failedFetchState) ≠
      some (zunyiLocation.coords, zunyiLocation.zoom, 12/10) := by
  intro h
  exact Option.noConfusion h

/-- C1 (amended): a geometry-fetch failure is absorbed by the catch
block — the completion leaves the widget state unchanged, so nothing
throws and the button panel renders exactly as before — but a
subsequent `selectLocation` call is a no-op: the `!geojson` guard
returns before any state change or fly-to command. -/
theorem fetch_failure_degrades_gracefully (st : WidgetState) (h : st.geojsonRef = none) :
    loadGeoJSONComplete FetchResult.failure st = st
    ∧ panelRendered (loadGeoJSONComplete FetchResult.failure st) = panelRendered st
    ∧ ∀ location, handleLocationClick location (loadGeoJSONComplete FetchResult.failure st) =
        loadGeoJSONComplete FetchResult.failure st := by
  refine ⟨rfl, rfl, ?_⟩
  intro location
  exact click_noop location st (Or.inr (Or.inr h))

/-- Witness for C1 (amended) at the concrete failed-fetch state. -/
theorem fetch_failure_degrades_gracefully_witness :
    loadGeoJSONComplete FetchResult.failure failedFetchState = failedFetchState
    ∧ panelRendered (loadGeoJSONComplete FetchResult.failure failedFetchState) =
        panelRendered failedFetchState
    ∧ handleLocationClick chinaLocation (loadGeoJSONComplete FetchResult.failure failedFetchState) =
        loadGeoJSONComplete FetchResult.failure failedFetchState := by
  have h := fetch_failure_degrades_gracefully failedFetchState rfl
  exact ⟨h.1, h.2.1, h.2.2 chinaLocation⟩

/-- State reached when the widget unmounted while the fetch was still
outstanding: the map object has been `remove()`d and `mapRef.current`
cleared. -/
def unmountedMidFetch : WidgetState := cleanupEffect (initMapEffect initialWidgetState true)

/-- A feature collection arriving after unmount. -/
def lateFeatures : List Feature := [{ adcode := some 520300, name := some "遵义市" }]

/-- C5 evidence: when the fetch resolves successfully after unmount,
the completion handler performs no validity check — although
`mapRef.current` is already null, it still adds the overlay to the
captured, already-removed map object and stores the overlay in
`geojsonRef`, i.e. it mutates a torn-down map instance instead of
discarding the result. -/
theorem unmounted_fetch_success_still_mutates :
    (loadGeoJSONComplete (FetchResult.success lateFeatures) unmountedMidFetch).map.map
        (fun m => (m.removed, m.overlayAttached)) = some (true, true)
    ∧ (loadGeoJSONComplete (FetchResult.success lateFeatures) unmountedMidFetch).geojsonRef =
        some { layers := lateFeatures.map mkLayer, selectedLayer := none }
    ∧ unmountedMidFetch.mapRefSet = false :=
  ⟨rfl, rfl, rfl⟩
